import Mathlib

set_option linter.unusedSectionVars false
set_option linter.unusedVariables false

/-!
# Verification of the snapshot-and-reconcile engine

Shallow embedding of the diff/patch algorithm (`src/server/src/reconciler_v2.rs`),
the project-node snapshot middleware (`src/src/snapshot_middleware/project.rs`)
and the Lua identifier formatter (`src/src/lua_ast.rs`), together with proofs of
the claims about them.

Conventions used throughout the embedding:
* Rust `HashMap<K, V>` values are represented as association lists
  (`List (K × V)`) whose keys are unique; `HashMap::insert` is the
  overwriting `insertAssoc`, `HashMap::get`/`contains_key` are `lookupAssoc`
  and its `isSome`, `HashMap::remove` (returning the removed value) is
  `removeAssoc`.
* `RbxId` (an opaque unique 128-bit identifier minted by the instance store)
  is represented as `Nat`; the store keeps a `next_id` counter and every live
  identifier is smaller than it.
* A Rust `panic!`/`unwrap`/`expect` is modelled as `Option.none`
  (for the reconciler) or as a thrown `Except.error` (for the snapshot
  middleware, whose surrounding pipeline also returns structured errors).
-/

/-! ## Association lists: lookup, overwrite-insert, remove, replace, erase -/

/-- First-match lookup in an association list (`HashMap::get`). -/
def lookupAssoc {κ α : Type} [DecidableEq κ] : List (κ × α) → κ → Option α
  | [], _ => none
  | (k, v) :: rest, k0 => if k = k0 then some v else lookupAssoc rest k0

/-- Overwriting insert (`HashMap::insert`): replaces the first entry with the
given key in place, or appends a new entry. -/
def insertAssoc {κ α : Type} [DecidableEq κ] (k0 : κ) (a : α) : List (κ × α) → List (κ × α)
  | [] => [(k0, a)]
  | (k, v) :: rest => if k = k0 then (k0, a) :: rest else (k, v) :: insertAssoc k0 a rest

/-- `HashMap::remove`: returns the removed value together with the remaining
entries, or `none` when the key is absent. -/
def removeAssoc {κ α : Type} [DecidableEq κ] : List (κ × α) → κ → Option (α × List (κ × α))
  | [], _ => none
  | (k, v) :: rest, k0 =>
    if k = k0 then some (v, rest)
    else (removeAssoc rest k0).map (fun p => (p.1, (k, v) :: p.2))

/-- Replace the value stored at a key, leaving the list unchanged when the key
is absent. -/
def replaceAssoc {κ α : Type} [DecidableEq κ] : List (κ × α) → κ → α → List (κ × α)
  | [], _, _ => []
  | (k, v) :: rest, k0, a => if k = k0 then (k0, a) :: rest else (k, v) :: replaceAssoc rest k0 a

/-- Drop every entry with the given key (`HashMap::remove` when the removed
value is not needed). -/
def eraseAssoc {κ α : Type} [DecidableEq κ] (k0 : κ) (l : List (κ × α)) : List (κ × α) :=
  l.filter (fun kv => kv.1 ≠ k0)

/-- The keys of an association list. -/
def assocKeys {κ α : Type} (l : List (κ × α)) : List κ :=
  l.map Prod.fst

theorem lookupAssoc_insertAssoc {κ α : Type} [DecidableEq κ] (l : List (κ × α)) (k0 k : κ) (a : α) :
    lookupAssoc (insertAssoc k0 a l) k = if k0 = k then some a else lookupAssoc l k := by
  induction l with
  | nil => simp [insertAssoc, lookupAssoc]
  | cons hd tl ih =>
    obtain ⟨k1, v1⟩ := hd
    by_cases h1 : k1 = k0
    · subst h1
      by_cases h2 : k1 = k <;> simp [insertAssoc, lookupAssoc, h2]
    · by_cases h2 : k1 = k
      · subst h2
        have h0 : ¬ k1 = k0 := h1
        have h0' : ¬ k0 = k1 := fun h => h1 h.symm
        simp [insertAssoc, lookupAssoc, h0, h0']
      · simp [insertAssoc, lookupAssoc, h1, h2, ih]

theorem lookupAssoc_replaceAssoc {κ α : Type} [DecidableEq κ] (l : List (κ × α)) (k0 k : κ) (a : α) :
    lookupAssoc (replaceAssoc l k0 a) k =
      if k0 = k then (if (lookupAssoc l k0).isSome then some a else none)
      else lookupAssoc l k := by
  induction l with
  | nil => simp [replaceAssoc, lookupAssoc]
  | cons hd tl ih =>
    obtain ⟨k1, v1⟩ := hd
    by_cases h1 : k1 = k0
    · subst h1
      by_cases h2 : k1 = k
      · subst h2; simp [replaceAssoc, lookupAssoc]
      · have h2' : ¬ k = k1 := fun h => h2 h.symm
        simp [replaceAssoc, lookupAssoc, h2]
    · by_cases h2 : k1 = k
      · subst h2
        have h1' : ¬ k0 = k1 := fun h => h1 h.symm
        simp [replaceAssoc, lookupAssoc, h1, h1', ih]
      · simp [replaceAssoc, lookupAssoc, h1, h2, ih]

theorem lookupAssoc_isSome_of_mem {κ α : Type} [DecidableEq κ] {l : List (κ × α)} {kv : κ × α}
    (h : kv ∈ l) : (lookupAssoc l kv.1).isSome := by
  induction l with
  | nil => simp at h
  | cons hd tl ih =>
    obtain ⟨k1, v1⟩ := hd
    rcases List.mem_cons.mp h with h | h
    · subst h; simp [lookupAssoc]
    · by_cases h1 : k1 = kv.1 <;> simp [lookupAssoc, h1, ih h]

theorem lookupAssoc_eq_of_mem_nodup {κ α : Type} [DecidableEq κ] {l : List (κ × α)} {k : κ} {a : α}
    (hnd : (assocKeys l).Nodup) (h : (k, a) ∈ l) : lookupAssoc l k = some a := by
  induction l with
  | nil => simp at h
  | cons hd tl ih =>
    obtain ⟨k1, v1⟩ := hd
    simp only [assocKeys, List.map_cons, List.nodup_cons] at hnd
    rcases List.mem_cons.mp h with h | h
    · rw [Prod.mk.injEq] at h
      simp [lookupAssoc, h.1, h.2]
    · have hk1 : ¬ k1 = k := by
        intro hk; subst hk
        exact hnd.1 (List.mem_map.mpr ⟨(k1, a), h, rfl⟩)
      have := ih hnd.2 h
      simp [lookupAssoc, hk1, this]

theorem lookupAssoc_eq_none_iff {κ α : Type} [DecidableEq κ] {l : List (κ × α)} {k : κ} :
    lookupAssoc l k = none ↔ k ∉ assocKeys l := by
  induction l with
  | nil => simp [lookupAssoc, assocKeys]
  | cons hd tl ih =>
    obtain ⟨k1, v1⟩ := hd
    by_cases h1 : k1 = k
    · subst h1; simp [lookupAssoc, assocKeys]
    · have h1' : ¬ k = k1 := fun h => h1 h.symm
      simp only [lookupAssoc, if_neg h1, assocKeys, List.map_cons, List.mem_cons]
      rw [ih]
      simp [assocKeys, h1']

theorem eq_nil_of_lookupAssoc_eq_none {κ α : Type} [DecidableEq κ] {l : List (κ × α)}
    (h : ∀ k, lookupAssoc l k = none) : l = [] := by
  cases l with
  | nil => rfl
  | cons hd tl => have := h hd.1; simp [lookupAssoc] at this

/-! ## The instance store (`rbx_dom_weak::RbxTree`)

Modelled from the spec: the `RbxTree` instance store is provided by the
`rbx_dom_weak` dependency, whose source is not part of this repository.  The
spec (sections 3 and 4.1) describes it: a map from stable identifiers to
records `{name, class_name, properties, parent, children}`;
`insert(props, parent_id)` mints a fresh identifier and appends it at the end
of the parent's children, failing when the parent is unknown; `remove(id)`
deletes the instance and recursively its descendants and unlinks it from its
parent.  Identifiers are represented as `Nat` minted from a `next_id`
counter.  Property values are an abstract type `V` with decidable (structural)
equality, standing for `RbxValue`. -/

/-- `rbx_dom_weak::RbxInstanceProperties`: the data supplied when creating an
instance. -/
structure RbxInstanceProperties (V : Type) where
  name : String
  class_name : String
  properties : List (String × V)
deriving DecidableEq, Repr

/-- A live instance record held by the store. -/
structure RbxInstance (V : Type) where
  name : String
  class_name : String
  properties : List (String × V)
  parent : Option Nat
  children : List Nat
deriving DecidableEq, Repr

/-- The instance store. -/
structure RbxTree (V : Type) where
  instances : List (Nat × RbxInstance V)
  root_id : Nat
  next_id : Nat
deriving DecidableEq, Repr

variable {V : Type} [DecidableEq V]

/-- `RbxTree::get_instance`. -/
def getInstance (t : RbxTree V) (id : Nat) : Option (RbxInstance V) :=
  lookupAssoc t.instances id

/-- Store a (possibly updated) record at an identifier that is already live;
a no-op when the identifier is unknown. -/
def setInstance (t : RbxTree V) (id : Nat) (inst : RbxInstance V) : RbxTree V :=
  { t with instances := replaceAssoc t.instances id inst }

/-- Delete just the record with the given identifier. -/
def eraseId (id : Nat) (t : RbxTree V) : RbxTree V :=
  { t with instances := eraseAssoc id t.instances }

/-- Remove an instance from its parent's ordered children list. -/
def unlink (cid : Nat) (t : RbxTree V) : RbxTree V :=
  match getInstance t cid with
  | none => t
  | some ci =>
    match ci.parent with
    | none => t
    | some pid =>
      match getInstance t pid with
      | none => t
      | some pinst =>
        setInstance t pid { pinst with children := pinst.children.filter (fun x => x ≠ cid) }

/-- Delete the record at `id` and, recursively, the records of all of its
descendants.  The fuel argument bounds the recursion depth; callers pass the
number of records in the store, which suffices on any well-formed tree. -/
def removeSubtreeFuel : Nat → Nat → RbxTree V → RbxTree V
  | 0, _, t => t
  | fuel + 1, id, t =>
    match getInstance t id with
    | none => t
    | some inst =>
      eraseId id (inst.children.foldl (fun acc c => removeSubtreeFuel fuel c acc) t)

/-- `RbxTree::remove_instance`: unlink from the parent, then delete the whole
subtree. -/
def remove_instance (id : Nat) (t : RbxTree V) : RbxTree V :=
  removeSubtreeFuel (unlink id t).instances.length id (unlink id t)

/-- `RbxTree::insert_instance`: mint a fresh identifier, append it at the end
of the parent's children and add the record.  Fails (`none`) when the parent
is unknown. -/
def insert_instance (props : RbxInstanceProperties V) (parent_id : Nat) (t : RbxTree V) :
    Option (RbxTree V) :=
  match getInstance t parent_id with
  | none => none
  | some pinst =>
    let newId := t.next_id
    let t1 := setInstance t parent_id { pinst with children := pinst.children ++ [newId] }
    some { t1 with
      instances := t1.instances ++
        [(newId, ⟨props.name, props.class_name, props.properties, some parent_id, []⟩)],
      next_id := t.next_id + 1 }

/-- `snapshot_reconciler::RbxSnapshotInstance` (only the fields read by the
reconciler: `name`, `class_name`, `properties`, `children`; the snapshot
metadata is never consulted by `compute_patch`/`apply_patch`). -/
inductive RbxSnapshotInstance (V : Type) : Type where
  | mk (name : String) (class_name : String) (properties : List (String × V))
      (children : List (RbxSnapshotInstance V)) : RbxSnapshotInstance V

def RbxSnapshotInstance.name {V : Type} : RbxSnapshotInstance V → String
  | .mk n _ _ _ => n

def RbxSnapshotInstance.class_name {V : Type} : RbxSnapshotInstance V → String
  | .mk _ c _ _ => c

def RbxSnapshotInstance.properties {V : Type} : RbxSnapshotInstance V → List (String × V)
  | .mk _ _ p _ => p

def RbxSnapshotInstance.children {V : Type} : RbxSnapshotInstance V → List (RbxSnapshotInstance V)
  | .mk _ _ _ c => c

/-- `InstancePatch` from `reconciler_v2.rs`. -/
structure InstancePatch (V : Type) where
  changed_name : Option String
  changed_properties : List (String × Option V)
  changed_children : Option (List Nat)
  changed_metadata : Option Unit
deriving DecidableEq, Repr

/-- `TreePatch` from `reconciler_v2.rs` (note: it has no `removed` field). -/
structure TreePatch (V : Type) where
  added : List (Nat × RbxInstanceProperties V)
  updated : List (Nat × InstancePatch V)
deriving DecidableEq, Repr

/-- `TreePatch::default()`. -/
def TreePatch.empty (V : Type) : TreePatch V := ⟨[], []⟩

/-- `InstancePatch::is_empty`. -/
def InstancePatch.is_empty (p : InstancePatch V) : Bool :=
  p.changed_name.isNone && p.changed_properties.isEmpty
    && p.changed_children.isNone && p.changed_metadata.isNone

/-- First property loop of `compute_patch_core` (lines 74-85): iterate over the
instance's properties, recording `None` for keys the snapshot dropped and
`Some snapshot_value` for keys whose value differs. -/
def diffInstProps (snapProps : List (String × V)) :
    List (String × V) → List (String × Option V) → List (String × Option V)
  | [], acc => acc
  | (key, instance_value) :: rest, acc =>
    diffInstProps snapProps rest
      (match lookupAssoc snapProps key with
       | some snapshot_value =>
         if snapshot_value ≠ instance_value then insertAssoc key (some snapshot_value) acc else acc
       | none => insertAssoc key none acc)

/-- Second property loop of `compute_patch_core` (lines 87-102): iterate over
the snapshot's properties, skipping keys already recorded, and record
`Some snapshot_value` for new or differing keys. -/
def diffSnapProps (instProps : List (String × V)) :
    List (String × V) → List (String × Option V) → List (String × Option V)
  | [], acc => acc
  | (key, snapshot_value) :: rest, acc =>
    diffSnapProps instProps rest
      (if (lookupAssoc acc key).isSome then acc
       else
         match lookupAssoc instProps key with
         | some instance_value =>
           if snapshot_value ≠ instance_value then insertAssoc key (some snapshot_value) acc else acc
         | none => insertAssoc key (some snapshot_value) acc)

/-- The `InstancePatch` accumulated by `compute_patch_core` for one
instance/snapshot pair (lines 64-102): the name check (which records the
*instance's* current name) followed by the two property loops.
`changed_children` and `changed_metadata` are never set by the source. -/
def instance_patch_of (inst : RbxInstance V) (snap : RbxSnapshotInstance V) : InstancePatch V :=
  { changed_name := if inst.name ≠ snap.name then some inst.name else none,
    changed_properties :=
      diffSnapProps inst.properties snap.properties (diffInstProps snap.properties inst.properties []),
    changed_children := none,
    changed_metadata := none }

/-- `compute_patch_core`: returns `none` for the `panic!` on a class-name
mismatch; otherwise pushes the accumulated `InstancePatch` when non-empty. -/
def compute_patch_core (t : RbxTree V) (id : Nat) (snap : RbxSnapshotInstance V)
    (tree_patch : TreePatch V) : Option (TreePatch V) :=
  match getInstance t id with
  | none => some tree_patch
  | some inst =>
    if inst.class_name ≠ snap.class_name then none
    else
      let instance_patch := instance_patch_of inst snap
      if instance_patch.is_empty then some tree_patch
      else some { tree_patch with updated := tree_patch.updated ++ [(id, instance_patch)] }

/-- `compute_patch`. -/
def compute_patch (t : RbxTree V) (id : Nat) (snap : RbxSnapshotInstance V) :
    Option (TreePatch V) :=
  compute_patch_core t id snap (TreePatch.empty V)

/-- Apply the property edits of an `InstancePatch` to a record
(`apply_patch` lines 115-120): `Some value` inserts, `None` removes. -/
def applyProperties : List (String × Option V) → RbxInstance V → RbxInstance V
  | [], inst => inst
  | (key, some value) :: rest, inst =>
    applyProperties rest { inst with properties := insertAssoc key value inst.properties }
  | (key, none) :: rest, inst =>
    applyProperties rest { inst with properties := eraseAssoc key inst.properties }

/-- The insertion loop of `apply_patch` (lines 157-160): each id to add is
looked up — and consumed — in the patch's `added` map (`unwrap` panics,
modelled as `none`, when absent) and inserted under the parent. -/
def insertLoop : List Nat → Nat → RbxTree V → List (Nat × RbxInstanceProperties V) →
    Option (RbxTree V × List (Nat × RbxInstanceProperties V))
  | [], _, t, added => some (t, added)
  | added_id :: rest, id, t, added =>
    match removeAssoc added added_id with
    | none => none
    | some (props, added') =>
      match insert_instance props id t with
      | none => none
      | some t' => insertLoop rest id t' added'

/-- The name/property phase of one `updated` entry (`apply_patch` lines
114-125): skipped silently when the id is dead. -/
def applyNameProps (patch : InstancePatch V) (t : RbxTree V) (id : Nat) : RbxTree V :=
  match getInstance t id with
  | none => t
  | some instance0 =>
    let instance1 := applyProperties patch.changed_properties instance0
    let instance2 :=
      match patch.changed_name with
      | some name => { instance1 with name := name }
      | none => instance1
    setInstance t id instance2

/-- Process one entry of `tree_patch.updated` (`apply_patch` lines 113-161):
name/property changes first, then the `changed_children` reconciliation.  The
`get_instance(id).unwrap()` on line 131 panics (modelled as `none`) when the
id is dead. -/
def applyUpdatedEntry (id : Nat) (patch : InstancePatch V) (t : RbxTree V)
    (added : List (Nat × RbxInstanceProperties V)) :
    Option (RbxTree V × List (Nat × RbxInstanceProperties V)) :=
  match patch.changed_children with
  | none => some (applyNameProps patch t id, added)
  | some new_children_ids =>
    match getInstance (applyNameProps patch t id) id with
    | none => none
    | some inst =>
      let children_ids := inst.children
      let removed_ids := children_ids.filter (fun c => !(new_children_ids.contains c))
      let added_ids := new_children_ids.filter (fun n => !(children_ids.contains n))
      let t2 := removed_ids.foldl (fun acc r => remove_instance r acc)
        (applyNameProps patch t id)
      insertLoop added_ids id t2 added

/-- The outer loop of `apply_patch` over `tree_patch.updated`. -/
def applyUpdates : List (Nat × InstancePatch V) → RbxTree V →
    List (Nat × RbxInstanceProperties V) →
    Option (RbxTree V × List (Nat × RbxInstanceProperties V))
  | [], t, added => some (t, added)
  | (id, patch) :: rest, t, added =>
    match applyUpdatedEntry id patch t added with
    | none => none
    | some (t', added') => applyUpdates rest t' added'

/-- `apply_patch`: `none` models a panic inside the Rust function. -/
def apply_patch (tree_patch : TreePatch V) (t : RbxTree V) : Option (RbxTree V) :=
  (applyUpdates tree_patch.updated t tree_patch.added).map (fun st => st.1)

/-! ## The project snapshot middleware (`src/src/snapshot_middleware/project.rs`)

External collaborators are abstracted as parameters:
* `resolve` stands for `rbx_reflection::try_resolve_value`; the `expect` on a
  resolution failure panics, modelled as the `unresolvedValue` error;
* `sfv` stands for `snapshot_from_vfs` applied to the ambient context and VFS;
* `is_relative` and `joinPath` stand for `std::path::Path::is_relative` and
  `Path::join`; paths are represented as strings.
A panic inside `snapshot_project_node` is modelled as a thrown error. -/

/-- The failure modes of `snapshot_project_node` (spec section 7). -/
inductive SnapshotError : Type where
  /-- `$className` set alongside a non-Folder `$path` (the panic on line 129). -/
  | classMixViolation
  /-- neither `$className` nor a resolvable `$path` (the `expect` on line 162). -/
  | missingClass
  /-- a property value rejected by the resolver (the `expect` on line 174). -/
  | unresolvedValue
  /-- an underlying VFS read failure, surfaced unchanged. -/
  | vfsError
deriving DecidableEq, Repr

/-- Modelled from the spec: `snapshot::InstanceMetadata` lives outside `src/`.
Per spec section 3 it carries `ignore_unknown_instances`,
`instigating_source`, `relevant_paths` and `context`; only the first two are
referenced by the claims, and the `ProjectNode(folder, name, node)`
instigating source is abbreviated to its `(folder, name)` pair (the node
clone adds nothing the claims inspect).  `relevant_paths` and `context` are
omitted. -/
structure InstanceMetadata where
  ignore_unknown_instances : Bool
  instigating_source : Option (String × String)
deriving DecidableEq, Repr

/-- Modelled from the spec: `InstanceMetadata::default()`; per spec property 6,
`ignore_unknown_instances` defaults to `false`. -/
def InstanceMetadata.deflt : InstanceMetadata := ⟨false, none⟩

/-- `snapshot::InstanceSnapshot` with children inline; `U` below is the type of
unresolved manifest property values, `V` the resolved value type. -/
inductive InstanceSnapshot (V : Type) : Type where
  | mk (snapshot_id : Option Nat) (name : String) (class_name : String)
      (properties : List (String × V)) (children : List (InstanceSnapshot V))
      (metadata : InstanceMetadata) : InstanceSnapshot V

def InstanceSnapshot.snapshot_id {V : Type} : InstanceSnapshot V → Option Nat
  | .mk i _ _ _ _ _ => i

def InstanceSnapshot.name {V : Type} : InstanceSnapshot V → String
  | .mk _ n _ _ _ _ => n

def InstanceSnapshot.class_name {V : Type} : InstanceSnapshot V → String
  | .mk _ _ c _ _ _ => c

def InstanceSnapshot.properties {V : Type} : InstanceSnapshot V → List (String × V)
  | .mk _ _ _ p _ _ => p

def InstanceSnapshot.children {V : Type} : InstanceSnapshot V → List (InstanceSnapshot V)
  | .mk _ _ _ _ c _ => c

def InstanceSnapshot.metadata {V : Type} : InstanceSnapshot V → InstanceMetadata
  | .mk _ _ _ _ _ m => m

/-- `project::ProjectNode`: `$className`, `$path`, `$properties`,
`$ignoreUnknownInstances` and the named children. -/
inductive ProjectNode (U : Type) : Type where
  | mk (class_name : Option String) (path : Option String)
      (properties : List (String × U)) (ignore_unknown_instances : Option Bool)
      (children : List (String × ProjectNode U)) : ProjectNode U

def ProjectNode.class_name {U : Type} : ProjectNode U → Option String
  | .mk c _ _ _ _ => c

def ProjectNode.path {U : Type} : ProjectNode U → Option String
  | .mk _ p _ _ _ => p

def ProjectNode.properties {U : Type} : ProjectNode U → List (String × U)
  | .mk _ _ p _ _ => p

def ProjectNode.ignore_unknown_instances {U : Type} : ProjectNode U → Option Bool
  | .mk _ _ _ i _ => i

def ProjectNode.children {U : Type} : ProjectNode U → List (String × ProjectNode U)
  | .mk _ _ _ _ c => c

variable {U : Type}
variable (resolve : String → String → U → Option V)
variable (sfv : String → Except SnapshotError (Option (InstanceSnapshot V)))
variable (is_relative : String → Bool) (joinPath : String → String → String)

/-- The `$path` handling of `snapshot_project_node` (lines 106-158): resolve
the path relative to the project folder, snapshot it through the middleware
pipeline, apply the Folder-only `$className` override rule, and start from the
`$path` snapshot's properties, children and metadata.  Without `$path` (or
when the path yields no instance — the warn branch) everything starts empty
with default metadata and the node's own `$className`. -/
def pathStep (project_folder : String) (node_class_name : Option String)
    (node_path : Option String) :
    Except SnapshotError
      (Option String × List (String × V) × List (InstanceSnapshot V) × InstanceMetadata) :=
  match node_path with
  | none => .ok (node_class_name, [], [], InstanceMetadata.deflt)
  | some path =>
    let path := if is_relative path then joinPath project_folder path else path
    match sfv path with
    | .error e => .error e
    | .ok none => .ok (node_class_name, [], [], InstanceMetadata.deflt)
    | .ok (some snapshot) =>
      match node_class_name with
      | some class_name =>
        if snapshot.class_name = "Folder" then
          .ok (some class_name, snapshot.properties, snapshot.children, snapshot.metadata)
        else .error .classMixViolation
      | none =>
        .ok (some snapshot.class_name, snapshot.properties, snapshot.children, snapshot.metadata)

/-- The `$properties` loop (lines 172-177): resolve each manifest value
against the chosen class and overwrite the accumulated properties. -/
def resolveProps (class_name : String) :
    List (String × U) → List (String × V) → Except SnapshotError (List (String × V))
  | [], properties => .ok properties
  | (key, value) :: rest, properties =>
    match resolve class_name key value with
    | none => .error .unresolvedValue
    | some resolved_value => resolveProps class_name rest (insertAssoc key resolved_value properties)

mutual

/-- `snapshot_project_node` (lines 90-207). -/
def snapshot_project_node (project_folder instance_name : String) (node : ProjectNode U) :
    Except SnapshotError (Option (InstanceSnapshot V)) :=
  match node with
  | .mk node_class_name node_path node_properties node_ignore node_children =>
    match pathStep sfv is_relative joinPath project_folder node_class_name node_path with
    | .error e => .error e
    | .ok (class_name1, properties1, children1, metadata1) =>
      match class_name1 with
      | none => .error .missingClass
      | some class_name =>
        match snapshot_children project_folder node_children with
        | .error e => .error e
        | .ok child_snaps =>
          match resolveProps resolve class_name node_properties properties1 with
          | .error e => .error e
          | .ok properties2 =>
            let metadata2 :=
              match node_ignore with
              | some ignore => { metadata1 with ignore_unknown_instances := ignore }
              | none =>
                if node_path.isNone then { metadata1 with ignore_unknown_instances := true }
                else metadata1
            .ok (some (.mk none instance_name class_name properties2 (children1 ++ child_snaps)
              { metadata2 with instigating_source := some (project_folder, instance_name) }))
termination_by sizeOf node

/-- The recursive loop over the node's declared children (lines 164-170):
children that snapshot to `None` are skipped, the rest are appended in
declaration order. -/
def snapshot_children (project_folder : String) (nodes : List (String × ProjectNode U)) :
    Except SnapshotError (List (InstanceSnapshot V)) :=
  match nodes with
  | [] => .ok []
  | (child_name, child_node) :: rest =>
    match snapshot_project_node project_folder child_name child_node with
    | .error e => .error e
    | .ok result =>
      match snapshot_children project_folder rest with
      | .error e => .error e
      | .ok rest' =>
        match result with
        | some snap => .ok (snap :: rest')
        | none => .ok rest'
termination_by sizeOf nodes

end

/-! ## Lua identifier formatting (`src/src/lua_ast.rs`) -/

/-- `is_valid_ident_char_start` (lines 179-181): an ASCII letter or `_`.
(`Char.isAlpha` matches Rust's `char::is_ascii_alphabetic`.) -/
def is_valid_ident_char_start (value : Char) : Bool :=
  value.isAlpha || value == '_'

/-- `is_valid_ident_char` (lines 183-185): an ASCII alphanumeric or `_`.
(`Char.isAlphanum` matches Rust's `char::is_ascii_alphanumeric`.) -/
def is_valid_ident_char (value : Char) : Bool :=
  value.isAlphanum || value == '_'

/-- `is_keyword` (lines 187-194). -/
def is_keyword (value : String) : Bool :=
  match value with
  | "and" | "break" | "do" | "else" | "elseif" | "end" | "false" | "for" | "function"
  | "if" | "in" | "local" | "nil" | "not" | "or" | "repeat" | "return" | "then" | "true"
  | "until" | "while" => true
  | _ => false

/-- `is_valid_ident` (lines 197-214): not a keyword, non-empty, a valid start
character followed by valid identifier characters. -/
def is_valid_ident (value : String) : Bool :=
  if is_keyword value then false
  else
    match value.data with
    | [] => false
    | first :: rest => is_valid_ident_char_start first && rest.all is_valid_ident_char

/-- `<String as FmtLua>::fmt_table_key` (lines 133-139): a valid identifier is
emitted bare, anything else is emitted bracketed and quoted. -/
def fmt_table_key_string (s : String) : String :=
  if is_valid_ident s then s else "[\"" ++ s ++ "\"]"

/-! ## Claims about the Lua identifier formatter -/

theorem fmt_table_key_string_bracket_ne (s : String) : "[\"" ++ s ++ "\"]" ≠ s := by
  intro h
  have hlen := congrArg String.length h
  rw [String.length_append, String.length_append] at hlen
  have h1 : ("[\"" : String).length = 2 := rfl
  have h2 : ("\"]" : String).length = 2 := rfl
  rw [h1, h2] at hlen
  omega

/-- C10: a string table key is emitted bare (without brackets or quotes) iff it
is non-empty, not a Lua keyword, its first character is an ASCII letter or
underscore, and every remaining character is an ASCII alphanumeric or
underscore; otherwise it is emitted bracketed and quoted. -/
theorem lua_table_key_bare_iff (s : String) :
    (fmt_table_key_string s = s ↔
      (is_keyword s = false ∧
        match s.data with
        | [] => False
        | first :: rest =>
          (first.isAlpha = true ∨ first = '_') ∧ ∀ c ∈ rest, (c.isAlphanum = true ∨ c = '_'))) ∧
    (fmt_table_key_string s ≠ s → fmt_table_key_string s = "[\"" ++ s ++ "\"]") := by
  have hident : is_valid_ident s = true ↔
      (is_keyword s = false ∧
        match s.data with
        | [] => False
        | first :: rest =>
          (first.isAlpha = true ∨ first = '_') ∧ ∀ c ∈ rest, (c.isAlphanum = true ∨ c = '_')) := by
    unfold is_valid_ident
    by_cases hkw : is_keyword s
    · simp [hkw]
    · simp only [hkw, if_false, Bool.not_eq_true] at *
      cases hd : s.data with
      | nil => simp [hkw, hd]
      | cons first rest =>
        simp [hkw, hd, is_valid_ident_char_start, is_valid_ident_char, List.all_eq_true,
          Bool.or_eq_true, beq_iff_eq]
  constructor
  · constructor
    · intro h
      by_cases hv : is_valid_ident s
      · exact hident.mp hv
      · exact absurd (by simpa [fmt_table_key_string, hv] using h)
          (fmt_table_key_string_bracket_ne s)
    · intro h
      simp [fmt_table_key_string, hident.mpr h]
  · intro h
    by_cases hv : is_valid_ident s
    · exact absurd (by simp [fmt_table_key_string, hv]) h
    · simp [fmt_table_key_string, hv]

/-! ## Claims about `compute_patch` -/

/-- C9: `compute_patch` on an id that is not live in the tree returns the
empty patch instead of failing. -/
theorem compute_patch_unknown_id (t : RbxTree V) (id : Nat) (snap : RbxSnapshotInstance V)
    (h : getInstance t id = none) :
    compute_patch t id snap = some (TreePatch.empty V) := by
  unfold compute_patch compute_patch_core
  rw [h]

theorem compute_patch_unknown_id_witness :
    getInstance (⟨[], 0, 1⟩ : RbxTree String) 5 = none ∧
    compute_patch (⟨[], 0, 1⟩ : RbxTree String) 5 (.mk "X" "Folder" [] []) =
      some (TreePatch.empty String) :=
  ⟨rfl, compute_patch_unknown_id _ 5 _ rfl⟩

/-- The tree used as a counterexample input for the class-mismatch claim: one
root instance of class `Folder`. -/
def treeClassMix : RbxTree String :=
  ⟨[(0, ⟨"Root", "Folder", [], none, []⟩)], 0, 1⟩

/-- A snapshot for the same instance with a different class. -/
def snapClassMix : RbxSnapshotInstance String :=
  .mk "Root" "Model" [] []

/-- C2 counterexample: on a live instance whose class differs from the
snapshot's, `compute_patch` aborts (the `panic!("class_name shouldn't
change")` on line 67, modelled as `none`) — it does not produce a
removal-plus-add patch, contrary to the claim that it "does not abort". -/
theorem compute_patch_class_mismatch_example :
    getInstance treeClassMix 0 = some ⟨"Root", "Folder", [], none, []⟩ ∧
    snapClassMix.class_name = "Model" ∧
    compute_patch treeClassMix 0 snapClassMix = none := by
  refine ⟨rfl, rfl, by decide⟩

/-- C2 amended: on a live instance whose class differs from the snapshot's,
`compute_patch` aborts with the class-change panic; it produces no patch at
all (in particular no in-place class mutation and no removal/add), because
`TreePatch` has no `removed` set and the function never reaches the point of
emitting anything. -/
theorem compute_patch_class_mismatch_aborts (t : RbxTree V) (id : Nat)
    (snap : RbxSnapshotInstance V) (inst : RbxInstance V)
    (h : getInstance t id = some inst) (hne : inst.class_name ≠ snap.class_name) :
    compute_patch t id snap = none := by
  unfold compute_patch compute_patch_core
  rw [h]
  simp [hne]

theorem compute_patch_class_mismatch_aborts_witness :
    compute_patch treeClassMix 0 snapClassMix = none :=
  compute_patch_class_mismatch_aborts treeClassMix 0 snapClassMix
    ⟨"Root", "Folder", [], none, []⟩ rfl (by decide)

theorem lookupAssoc_diffInstProps (sp : List (String × V)) (l : List (String × V))
    (acc : List (String × Option V)) (hnd : (assocKeys l).Nodup)
    (hacc : ∀ kv ∈ l, lookupAssoc acc kv.1 = none) (k : String) :
    lookupAssoc (diffInstProps sp l acc) k =
      match lookupAssoc l k with
      | some iv =>
        (match lookupAssoc sp k with
         | some sv => if sv ≠ iv then some (some sv) else none
         | none => some none)
      | none => lookupAssoc acc k := by
  induction l generalizing acc with
  | nil => simp [diffInstProps, lookupAssoc]
  | cons hd tl ih =>
    obtain ⟨k0, iv0⟩ := hd
    simp only [assocKeys, List.map_cons, List.nodup_cons] at hnd
    have hk0tl : lookupAssoc tl k0 = none :=
      lookupAssoc_eq_none_iff.mpr (by simpa [assocKeys] using hnd.1)
    have hacc0 : lookupAssoc acc k0 = none := hacc (k0, iv0) (List.mem_cons_self _ _)
    -- the accumulator after processing the head entry
    set acc' :=
      (match lookupAssoc sp k0 with
       | some sv => if sv ≠ iv0 then insertAssoc k0 (some sv) acc else acc
       | none => insertAssoc k0 none acc) with hacc'
    have hstep : diffInstProps sp ((k0, iv0) :: tl) acc = diffInstProps sp tl acc' := by
      rw [hacc']
      rfl
    have hacc'tl : ∀ kv ∈ tl, lookupAssoc acc' kv.1 = none := by
      intro kv hkv
      have hne : ¬ k0 = kv.1 := by
        intro he
        exact hnd.1 (he ▸ List.mem_map.mpr ⟨kv, hkv, rfl⟩)
      rw [hacc']
      have haccm := hacc kv (List.mem_cons_of_mem _ hkv)
      cases hsp : lookupAssoc sp k0 with
      | none => simp [lookupAssoc_insertAssoc, hne, haccm]
      | some sv =>
        by_cases hif : sv ≠ iv0 <;>
          simp [hif, lookupAssoc_insertAssoc, hne, haccm]
    rw [hstep, ih acc' hnd.2 hacc'tl]
    by_cases hk : k0 = k
    · subst hk
      rw [hk0tl]
      simp only [lookupAssoc, if_pos rfl]
      rw [hacc']
      cases hsp : lookupAssoc sp k0 with
      | none => simp [lookupAssoc_insertAssoc]
      | some sv =>
        by_cases hif : sv ≠ iv0 <;> simp [hif, lookupAssoc_insertAssoc, hacc0]
    · have hcons : lookupAssoc ((k0, iv0) :: tl) k = lookupAssoc tl k := by
        simp [lookupAssoc, hk]
      rw [hcons]
      cases htl : lookupAssoc tl k with
      | some iv => rfl
      | none =>
        rw [hacc']
        cases hsp : lookupAssoc sp k0 with
        | none => simp [lookupAssoc_insertAssoc, hk]
        | some sv =>
          by_cases hif : sv ≠ iv0 <;> simp [hif, lookupAssoc_insertAssoc, hk]

theorem lookupAssoc_diffSnapProps (ip : List (String × V)) (l : List (String × V))
    (acc : List (String × Option V)) (hnd : (assocKeys l).Nodup) (k : String) :
    lookupAssoc (diffSnapProps ip l acc) k =
      match lookupAssoc l k with
      | some sv =>
        if (lookupAssoc acc k).isSome then lookupAssoc acc k
        else
          (match lookupAssoc ip k with
           | some iv => if sv ≠ iv then some (some sv) else none
           | none => some (some sv))
      | none => lookupAssoc acc k := by
  induction l generalizing acc with
  | nil => simp [diffSnapProps, lookupAssoc]
  | cons hd tl ih =>
    obtain ⟨k0, sv0⟩ := hd
    simp only [assocKeys, List.map_cons, List.nodup_cons] at hnd
    have hk0tl : lookupAssoc tl k0 = none :=
      lookupAssoc_eq_none_iff.mpr (by simpa [assocKeys] using hnd.1)
    set acc' :=
      (if (lookupAssoc acc k0).isSome then acc
       else
         match lookupAssoc ip k0 with
         | some iv => if sv0 ≠ iv then insertAssoc k0 (some sv0) acc else acc
         | none => insertAssoc k0 (some sv0) acc) with hacc'
    have hstep : diffSnapProps ip ((k0, sv0) :: tl) acc = diffSnapProps ip tl acc' := by
      rw [hacc']
      rfl
    have hacc'ne : ∀ k1, k1 ≠ k0 → lookupAssoc acc' k1 = lookupAssoc acc k1 := by
      intro k1 hne
      have hne' : ¬ k0 = k1 := fun h => hne h.symm
      rw [hacc']
      by_cases hs : (lookupAssoc acc k0).isSome
      · simp [hs]
      · simp only [hs, if_false]
        cases hip : lookupAssoc ip k0 with
        | none => simp [lookupAssoc_insertAssoc, hne']
        | some iv =>
          by_cases hif : sv0 ≠ iv <;> simp [hif, lookupAssoc_insertAssoc, hne']
    rw [hstep, ih acc' hnd.2]
    by_cases hk : k0 = k
    · subst hk
      rw [hk0tl]
      simp only [lookupAssoc, if_pos rfl]
      rw [hacc']
      by_cases hs : (lookupAssoc acc k0).isSome
      · simp [hs]
      · have haccnone : lookupAssoc acc k0 = none := by
          cases h : lookupAssoc acc k0 with
          | none => rfl
          | some v => rw [h] at hs; simp at hs
        simp only [hs, if_false]
        cases hip : lookupAssoc ip k0 with
        | none => simp [lookupAssoc_insertAssoc]
        | some iv =>
          by_cases hif : sv0 ≠ iv <;> simp [hif, lookupAssoc_insertAssoc, haccnone]
    · have hcons : lookupAssoc ((k0, sv0) :: tl) k = lookupAssoc tl k := by
        simp [lookupAssoc, hk]
      rw [hcons]
      have hne : k ≠ k0 := fun h => hk h.symm
      cases htl : lookupAssoc tl k with
      | some sv => rw [hacc'ne k hne]
      | none => rw [hacc'ne k hne]

/-- C4: for a live instance and a snapshot of the same class, the
`changed_properties` map produced by `compute_patch` contains exactly the
claimed entries: `None` for keys dropped by the snapshot, `Some
snapshot_value` for keys that are new or whose value differs structurally,
and nothing for keys with structurally equal values on both sides. -/
theorem compute_patch_changed_properties (t : RbxTree V) (id : Nat)
    (snap : RbxSnapshotInstance V) (inst : RbxInstance V)
    (h : getInstance t id = some inst) (hclass : inst.class_name = snap.class_name)
    (hnd1 : (assocKeys inst.properties).Nodup) (hnd2 : (assocKeys snap.properties).Nodup) :
    compute_patch t id snap =
      some (if (instance_patch_of inst snap).is_empty then TreePatch.empty V
            else ⟨[], [(id, instance_patch_of inst snap)]⟩) ∧
    ∀ key, lookupAssoc (instance_patch_of inst snap).changed_properties key =
      match lookupAssoc snap.properties key, lookupAssoc inst.properties key with
      | none, none => none
      | none, some _ => some none
      | some sv, none => some (some sv)
      | some sv, some iv => if iv = sv then none else some (some sv) := by
  constructor
  · unfold compute_patch compute_patch_core
    rw [h]
    simp only [hclass, ne_eq, not_true_eq_false, if_false, TreePatch.empty]
    by_cases he : (instance_patch_of inst snap).is_empty <;> simp [he]
  · intro key
    have h1 := lookupAssoc_diffInstProps snap.properties inst.properties
      ([] : List (String × Option V)) hnd1 (fun kv _ => rfl) key
    have h2 := lookupAssoc_diffSnapProps inst.properties snap.properties
      (diffInstProps snap.properties inst.properties []) hnd2 key
    show lookupAssoc
        (diffSnapProps inst.properties snap.properties
          (diffInstProps snap.properties inst.properties [])) key = _
    rw [h2]
    cases hsnap : lookupAssoc snap.properties key with
    | none =>
      rw [h1]
      cases hinst : lookupAssoc inst.properties key with
      | none => simp [lookupAssoc]
      | some iv => rw [hsnap]
    | some sv =>
      cases hinst : lookupAssoc inst.properties key with
      | none =>
        have h1' : lookupAssoc (diffInstProps snap.properties inst.properties []) key = none := by
          rw [h1, hinst]; rfl
        simp [h1']
      | some iv =>
        have h1' : lookupAssoc (diffInstProps snap.properties inst.properties []) key =
            if sv ≠ iv then some (some sv) else none := by
          rw [h1, hinst, hsnap]
        by_cases hvv : sv = iv
        · subst hvv
          simp at h1'
          simp [h1']
        · have hvv' : ¬ iv = sv := fun h => hvv h.symm
          simp [hvv, h1', hvv']

/-- C5: when the snapshot agrees with the live instance — same name, same
class and extensionally equal properties — `compute_patch` returns the empty
patch: no `updated` entries, no `added` entries (and `TreePatch` has no
removal set at all).  The source never descends into children, so no
assumption on them is even needed. -/
theorem compute_patch_same_source_empty (t : RbxTree V) (id : Nat)
    (snap : RbxSnapshotInstance V) (inst : RbxInstance V)
    (h : getInstance t id = some inst)
    (hname : inst.name = snap.name) (hclass : inst.class_name = snap.class_name)
    (hnd1 : (assocKeys inst.properties).Nodup) (hnd2 : (assocKeys snap.properties).Nodup)
    (hprops : ∀ k, lookupAssoc inst.properties k = lookupAssoc snap.properties k) :
    compute_patch t id snap = some (TreePatch.empty V) := by
  have hchar := (compute_patch_changed_properties t id snap inst h hclass hnd1 hnd2).2
  have hnone : ∀ key, lookupAssoc (instance_patch_of inst snap).changed_properties key = none := by
    intro key
    rw [hchar key]
    cases hsnap : lookupAssoc snap.properties key with
    | none =>
      have : lookupAssoc inst.properties key = none := (hprops key).trans hsnap
      rw [this]
    | some sv =>
      have : lookupAssoc inst.properties key = some sv := (hprops key).trans hsnap
      rw [this]
      simp
  have hempty : (instance_patch_of inst snap).changed_properties = [] :=
    eq_nil_of_lookupAssoc_eq_none hnone
  have hisempty : (instance_patch_of inst snap).is_empty = true := by
    unfold InstancePatch.is_empty instance_patch_of
    unfold instance_patch_of at hempty
    simp only at hempty ⊢
    rw [hempty]
    simp [hname]
  unfold compute_patch compute_patch_core
  rw [h]
  simp only [hclass, ne_eq, not_true_eq_false, if_false, hisempty, if_true]

def instPropsEx : RbxInstance String :=
  ⟨"Thing", "Folder", [("Dropped", "old"), ("Same", "s"), ("Diff", "a")], none, []⟩

def snapPropsEx : RbxSnapshotInstance String :=
  .mk "Thing" "Folder" [("Same", "s"), ("Diff", "b"), ("New", "n")] []

def treePropsEx : RbxTree String := ⟨[(0, instPropsEx)], 0, 1⟩

theorem compute_patch_changed_properties_witness :
    lookupAssoc (instance_patch_of instPropsEx snapPropsEx).changed_properties "Dropped" =
      some none ∧
    lookupAssoc (instance_patch_of instPropsEx snapPropsEx).changed_properties "Same" = none ∧
    lookupAssoc (instance_patch_of instPropsEx snapPropsEx).changed_properties "Diff" =
      some (some "b") ∧
    lookupAssoc (instance_patch_of instPropsEx snapPropsEx).changed_properties "New" =
      some (some "n") := by
  have hchar := (compute_patch_changed_properties treePropsEx 0 snapPropsEx instPropsEx rfl rfl
    (by decide) (by decide)).2
  refine ⟨?_, ?_, ?_, ?_⟩
  · rw [hchar "Dropped"]; decide
  · rw [hchar "Same"]; decide
  · rw [hchar "Diff"]; decide
  · rw [hchar "New"]; decide

def instSameEx : RbxInstance String := ⟨"Thing", "Folder", [("A", "x")], none, [7]⟩

def snapSameEx : RbxSnapshotInstance String := .mk "Thing" "Folder" [("A", "x")] []

def treeSameEx : RbxTree String := ⟨[(0, instSameEx)], 0, 1⟩

theorem compute_patch_same_source_empty_witness :
    compute_patch treeSameEx 0 snapSameEx = some (TreePatch.empty String) :=
  compute_patch_same_source_empty treeSameEx 0 snapSameEx instSameEx rfl rfl rfl
    (by decide) (by decide) (fun _ => rfl)

/-! ## C1: the round-trip invariant fails on the source's own test input -/

/-- The tree from the `simple` test in `reconciler_v2.rs`: a lone
`DataModel` root. -/
def treeSimple : RbxTree String :=
  ⟨[(0, ⟨"DataModel", "DataModel", [], none, []⟩)], 0, 1⟩

/-- The snapshot from the `simple` test: renamed root with one `Folder`
child. -/
def snapshotSimple : RbxSnapshotInstance String :=
  .mk "Not DataModel" "DataModel" [] [.mk "Hi" "Folder" [] []]

/-- C1 (code bug): applying the patch computed from `treeSimple` and
`snapshotSimple` leaves the tree completely unchanged — the root keeps its
old name `"DataModel"` (because `compute_patch` stores the *instance's*
current name in `changed_name`, line 71, which `apply_patch` then assigns
back, line 123) and gains no children (because `compute_patch` never emits
`added`/`changed_children` entries) — even though the snapshot asks for the
name `"Not DataModel"` and one `Folder` child. -/
theorem reconcile_roundtrip_fails_on_test_input :
    (compute_patch treeSimple 0 snapshotSimple).bind (fun p => apply_patch p treeSimple) =
      some treeSimple ∧
    compute_patch treeSimple 0 snapshotSimple =
      some ⟨[], [(0, ⟨some "DataModel", [], none, none⟩)]⟩ ∧
    getInstance treeSimple 0 = some ⟨"DataModel", "DataModel", [], none, []⟩ ∧
    snapshotSimple.name = "Not DataModel" ∧
    snapshotSimple.children.length = 1 := by
  refine ⟨by decide, by decide, rfl, rfl, rfl⟩

theorem lua_table_key_bare_iff_witness :
    fmt_table_key_string "abc" = "abc" ∧ fmt_table_key_string "1x" = "[\"1x\"]" :=
  ⟨((lua_table_key_bare_iff "abc").1).mpr (by decide),
   (lua_table_key_bare_iff "1x").2 (by decide)⟩

/-! ## Claims about the project middleware -/

theorem snapshot_project_node_ok_some
    (project_folder instance_name : String)
    (node_class_name : Option String) (node_path : Option String)
    (node_properties : List (String × U)) (node_ignore : Option Bool)
    (node_children : List (String × ProjectNode U)) (out : InstanceSnapshot V)
    (h : snapshot_project_node resolve sfv is_relative joinPath project_folder instance_name
      (.mk node_class_name node_path node_properties node_ignore node_children) = .ok (some out)) :
    ∃ class_name properties1 children1 metadata1 child_snaps properties2,
      pathStep sfv is_relative joinPath project_folder node_class_name node_path =
        .ok (some class_name, properties1, children1, metadata1) ∧
      snapshot_children resolve sfv is_relative joinPath project_folder node_children =
        .ok child_snaps ∧
      resolveProps resolve class_name node_properties properties1 = .ok properties2 ∧
      out = .mk none instance_name class_name properties2 (children1 ++ child_snaps)
        { (match node_ignore with
           | some ignore => { metadata1 with ignore_unknown_instances := ignore }
           | none =>
             if node_path.isNone then { metadata1 with ignore_unknown_instances := true }
             else metadata1)
          with instigating_source := some (project_folder, instance_name) } := by
  rw [snapshot_project_node] at h
  split at h
  · exact absurd h (by simp)
  · split at h
    · exact absurd h (by simp)
    · split at h
      · exact absurd h (by simp)
      · split at h
        · exact absurd h (by simp)
        · simp only [Except.ok.injEq, Option.some.injEq] at h
          subst h
          rename_i x2 props1 kids1 meta1 np2 cn heq1 x1 csnaps heq2 x0 props2 heq3
          exact ⟨cn, props1, kids1, meta1, csnaps, props2, heq1, heq2, heq3, rfl⟩

theorem resolveProps_ok_lookup (cn : String) (l : List (String × U)) (acc : List (String × V))
    (m : List (String × V)) (h : resolveProps resolve cn l acc = .ok m)
    (hnd : (assocKeys l).Nodup) :
    (∀ k, k ∉ assocKeys l → lookupAssoc m k = lookupAssoc acc k) ∧
    (∀ k u, (k, u) ∈ l → ∃ rv, resolve cn k u = some rv ∧ lookupAssoc m k = some rv) := by
  induction l generalizing acc with
  | nil =>
    simp only [resolveProps, Except.ok.injEq] at h
    subst h
    exact ⟨fun k _ => rfl, fun k u hm => by simp at hm⟩
  | cons hd tl ih =>
    obtain ⟨k0, u0⟩ := hd
    simp only [assocKeys, List.map_cons, List.nodup_cons] at hnd
    cases hr : resolve cn k0 u0 with
    | none => simp [resolveProps, hr] at h
    | some rv0 =>
      simp only [resolveProps, hr] at h
      obtain ⟨ih1, ih2⟩ := ih (insertAssoc k0 rv0 acc) h (by simpa [assocKeys] using hnd.2)
      have hk0tl : k0 ∉ assocKeys tl := by simpa [assocKeys] using hnd.1
      constructor
      · intro k hk
        simp only [assocKeys, List.map_cons, List.mem_cons, not_or] at hk
        have h1 := ih1 k (by simpa [assocKeys] using hk.2)
        rw [h1, lookupAssoc_insertAssoc]
        have hne : ¬ k0 = k := fun he => hk.1 he.symm
        simp [hne]
      · intro k u hm
        rcases List.mem_cons.mp hm with hm | hm
        · rw [Prod.mk.injEq] at hm
          obtain ⟨hk, hu⟩ := hm
          refine ⟨rv0, by rw [hk, hu]; exact hr, ?_⟩
          rw [hk, ih1 k0 hk0tl, lookupAssoc_insertAssoc]
          simp
        · exact ih2 k u hm

/-- C6 amended: with both `$className` and `$path` present and the `$path`
snapshot available, a non-`Folder` path snapshot makes `snapshot_project_node`
fail with the class-mix violation (the panic on line 129, fatal for the
sync); with a `Folder` path snapshot the class-mix check passes and *every*
snapshot the call returns carries the overridden `$className` — the call
itself can still fail for reasons unrelated to the class mix (a `$properties`
value the resolver rejects, or a failing declared child), and it does succeed
whenever the node carries no extra `$properties` or children. -/
theorem project_class_mix_rule (project_folder instance_name c p : String)
    (node_properties : List (String × U)) (node_ignore : Option Bool)
    (node_children : List (String × ProjectNode U)) (snapshot : InstanceSnapshot V)
    (hsfv : sfv (if is_relative p then joinPath project_folder p else p) = .ok (some snapshot)) :
    (snapshot.class_name ≠ "Folder" →
      snapshot_project_node resolve sfv is_relative joinPath project_folder instance_name
        (.mk (some c) (some p) node_properties node_ignore node_children) =
        .error .classMixViolation) ∧
    (∀ out : InstanceSnapshot V,
      snapshot_project_node resolve sfv is_relative joinPath project_folder instance_name
        (.mk (some c) (some p) node_properties node_ignore node_children) = .ok (some out) →
      out.class_name = c) ∧
    (snapshot.class_name = "Folder" → node_properties = [] → node_children = [] →
      ∃ out : InstanceSnapshot V,
        snapshot_project_node resolve sfv is_relative joinPath project_folder instance_name
          (.mk (some c) (some p) node_properties node_ignore node_children) = .ok (some out) ∧
        out.class_name = c) := by
  refine ⟨?_, ?_, ?_⟩
  · intro hne
    have hps : pathStep sfv is_relative joinPath project_folder (some c) (some p) =
        .error .classMixViolation := by
      simp only [pathStep]
      rw [hsfv]
      simp [hne]
    rw [snapshot_project_node]
    rw [hps]
  · intro out hout
    obtain ⟨cn, props1, kids1, meta1, csnaps, props2, hps, hsc2, hrp, houteq⟩ :=
      snapshot_project_node_ok_some resolve sfv is_relative joinPath project_folder
        instance_name (some c) (some p) node_properties node_ignore node_children out hout
    by_cases hf : snapshot.class_name = "Folder"
    · have hcomp : pathStep sfv is_relative joinPath project_folder (some c) (some p) =
          .ok (some c, snapshot.properties, snapshot.children, snapshot.metadata) := by
        simp only [pathStep]
        rw [hsfv]
        simp [hf]
      rw [hcomp] at hps
      simp only [Except.ok.injEq, Prod.mk.injEq, Option.some.injEq] at hps
      rw [houteq]
      show cn = c
      exact hps.1.symm
    · have hcomp : pathStep sfv is_relative joinPath project_folder (some c) (some p) =
          .error .classMixViolation := by
        simp only [pathStep]
        rw [hsfv]
        simp [hf]
      rw [hcomp] at hps
      cases hps
  · intro hfolder hp0 hc0
    subst hp0; subst hc0
    have hps : pathStep sfv is_relative joinPath project_folder (some c) (some p) =
        .ok (some c, snapshot.properties, snapshot.children, snapshot.metadata) := by
      simp only [pathStep]
      rw [hsfv]
      simp [hfolder]
    have hsc : snapshot_children resolve sfv is_relative joinPath project_folder
        ([] : List (String × ProjectNode U)) = .ok [] := by
      rw [snapshot_children]
    cases node_ignore with
    | none =>
      refine ⟨.mk none instance_name c snapshot.properties (snapshot.children ++ [])
          { snapshot.metadata with instigating_source := some (project_folder, instance_name) },
        ?_, rfl⟩
      rw [snapshot_project_node]
      simp only [hps, hsc, resolveProps]
      rfl
    | some ignore =>
      refine ⟨.mk none instance_name c snapshot.properties (snapshot.children ++ [])
          { ignore_unknown_instances := ignore,
            instigating_source := some (project_folder, instance_name) }, ?_, rfl⟩
      rw [snapshot_project_node]
      simp only [hps, hsc, resolveProps]

theorem pathStep_ok_metadata (project_folder : String) (node_class_name : Option String)
    (p : String) (snapshot : InstanceSnapshot V) (cn : String)
    (props1 : List (String × V)) (kids1 : List (InstanceSnapshot V)) (meta1 : InstanceMetadata)
    (hsfv : sfv (if is_relative p then joinPath project_folder p else p) = .ok (some snapshot))
    (h : pathStep sfv is_relative joinPath project_folder node_class_name (some p) =
      .ok (some cn, props1, kids1, meta1)) :
    props1 = snapshot.properties ∧ kids1 = snapshot.children ∧ meta1 = snapshot.metadata := by
  cases node_class_name with
  | none =>
    have hcomp : pathStep sfv is_relative joinPath project_folder none (some p) =
        .ok (some snapshot.class_name, snapshot.properties, snapshot.children,
          snapshot.metadata) := by
      simp only [pathStep]
      rw [hsfv]
    rw [hcomp] at h
    simp only [Except.ok.injEq, Prod.mk.injEq, Option.some.injEq] at h
    exact ⟨h.2.1.symm, h.2.2.1.symm, h.2.2.2.symm⟩
  | some c =>
    by_cases hf : snapshot.class_name = "Folder"
    · have hcomp : pathStep sfv is_relative joinPath project_folder (some c) (some p) =
          .ok (some c, snapshot.properties, snapshot.children, snapshot.metadata) := by
        simp only [pathStep]
        rw [hsfv]
        simp [hf]
      rw [hcomp] at h
      simp only [Except.ok.injEq, Prod.mk.injEq, Option.some.injEq] at h
      exact ⟨h.2.1.symm, h.2.2.1.symm, h.2.2.2.symm⟩
    · have hcomp : pathStep sfv is_relative joinPath project_folder (some c) (some p) =
          .error .classMixViolation := by
        simp only [pathStep]
        rw [hsfv]
        simp [hf]
      rw [hcomp] at h
      simp at h

/-- C7: the `ignore_unknown_instances` metadata of a successful
`snapshot_project_node` result is the node's explicit
`$ignoreUnknownInstances` when set; otherwise `true` when the node has no
`$path`; otherwise the value inherited from the `$path` snapshot's
metadata. -/
theorem project_ignore_unknown_rule (project_folder instance_name : String)
    (node_class_name : Option String) (node_path : Option String)
    (node_properties : List (String × U)) (node_ignore : Option Bool)
    (node_children : List (String × ProjectNode U)) (out : InstanceSnapshot V)
    (h : snapshot_project_node resolve sfv is_relative joinPath project_folder instance_name
      (.mk node_class_name node_path node_properties node_ignore node_children) = .ok (some out)) :
    (∀ b, node_ignore = some b → out.metadata.ignore_unknown_instances = b) ∧
    (node_ignore = none → node_path = none → out.metadata.ignore_unknown_instances = true) ∧
    (∀ p snapshot, node_ignore = none → node_path = some p →
      sfv (if is_relative p then joinPath project_folder p else p) = .ok (some snapshot) →
      out.metadata.ignore_unknown_instances = snapshot.metadata.ignore_unknown_instances) := by
  obtain ⟨cn, props1, kids1, meta1, csnaps, props2, hps, hsc, hrp, hout⟩ :=
    snapshot_project_node_ok_some resolve sfv is_relative joinPath project_folder instance_name
      node_class_name node_path node_properties node_ignore node_children out h
  refine ⟨?_, ?_, ?_⟩
  · intro b hb
    subst hb
    rw [hout]
    rfl
  · intro hign hpath
    subst hign; subst hpath
    rw [hout]
    rfl
  · intro p snapshot hign hpath hsfv2
    subst hign; subst hpath
    obtain ⟨hp1, hk1, hm1⟩ := pathStep_ok_metadata sfv is_relative joinPath project_folder
      node_class_name p snapshot cn props1 kids1 meta1 hsfv2 hps
    rw [hout]
    show meta1.ignore_unknown_instances = snapshot.metadata.ignore_unknown_instances
    rw [hm1]

/-- C8: with a `$path` whose snapshot succeeds, the resulting properties are
the `$path` snapshot's properties overlaid by the node's `$properties`
passed through the value resolver: `$properties` keys win, the rest are kept
unchanged. -/
theorem project_properties_overlay (project_folder instance_name : String)
    (node_class_name : Option String) (p : String)
    (node_properties : List (String × U)) (node_ignore : Option Bool)
    (node_children : List (String × ProjectNode U)) (snapshot out : InstanceSnapshot V)
    (hsfv : sfv (if is_relative p then joinPath project_folder p else p) = .ok (some snapshot))
    (h : snapshot_project_node resolve sfv is_relative joinPath project_folder instance_name
      (.mk node_class_name (some p) node_properties node_ignore node_children) = .ok (some out))
    (hnd : (assocKeys node_properties).Nodup) :
    (∀ k, k ∉ assocKeys node_properties →
      lookupAssoc out.properties k = lookupAssoc snapshot.properties k) ∧
    (∀ k u, (k, u) ∈ node_properties →
      ∃ rv, resolve out.class_name k u = some rv ∧ lookupAssoc out.properties k = some rv) := by
  obtain ⟨cn, props1, kids1, meta1, csnaps, props2, hps, hsc, hrp, hout⟩ :=
    snapshot_project_node_ok_some resolve sfv is_relative joinPath project_folder instance_name
      node_class_name (some p) node_properties node_ignore node_children out h
  obtain ⟨hp1, hk1, hm1⟩ := pathStep_ok_metadata sfv is_relative joinPath project_folder
    node_class_name p snapshot cn props1 kids1 meta1 hsfv hps
  subst hp1
  have hcls : out.class_name = cn := by rw [hout]; rfl
  have hprops : out.properties = props2 := by rw [hout]; rfl
  obtain ⟨r1, r2⟩ :=
    resolveProps_ok_lookup resolve cn node_properties snapshot.properties props2 hrp hnd
  constructor
  · intro k hk
    rw [hprops]
    exact r1 k hk
  · intro k u hm
    rw [hcls, hprops]
    exact r2 k u hm

/-- A resolver that accepts every value unchanged, for concrete runs. -/
def resolveId : String → String → String → Option String := fun _ _ u => some u

def snapFolderEx : InstanceSnapshot String :=
  .mk none "sub" "Folder" [("Value", "Original"), ("Keep", "k")] [] ⟨true, none⟩

def snapModelEx : InstanceSnapshot String := .mk none "sub" "Model" [] [] ⟨false, none⟩

def snapStringValueEx : InstanceSnapshot String :=
  .mk none "sub" "StringValue" [("Value", "Original"), ("Keep", "k")] [] ⟨false, none⟩

def sfvFolderEx : String → Except SnapshotError (Option (InstanceSnapshot String)) :=
  fun _ => .ok (some snapFolderEx)

def sfvModelEx : String → Except SnapshotError (Option (InstanceSnapshot String)) :=
  fun _ => .ok (some snapModelEx)

def sfvStringValueEx : String → Except SnapshotError (Option (InstanceSnapshot String)) :=
  fun _ => .ok (some snapStringValueEx)

def isRelEx : String → Bool := fun _ => false

def joinEx : String → String → String := fun a b => a ++ "/" ++ b

theorem project_class_mix_rule_witness :
    snapshot_project_node resolveId sfvModelEx isRelEx joinEx "/foo" "root"
      (.mk (some "Workspace") (some "p") [] none []) = .error .classMixViolation ∧
    ∃ out : InstanceSnapshot String,
      snapshot_project_node resolveId sfvFolderEx isRelEx joinEx "/foo" "root"
        (.mk (some "Workspace") (some "p") [] none []) = .ok (some out) ∧
      out.class_name = "Workspace" :=
  ⟨(project_class_mix_rule resolveId sfvModelEx isRelEx joinEx "/foo" "root" "Workspace" "p"
      [] none [] snapModelEx rfl).1 (by decide),
   (project_class_mix_rule resolveId sfvFolderEx isRelEx joinEx "/foo" "root" "Workspace" "p"
      [] none [] snapFolderEx rfl).2.2 rfl rfl rfl⟩

theorem project_ignore_unknown_rule_witness :
    (InstanceSnapshot.mk none "root" "Folder" [] [] ⟨false, some ("/foo", "root")⟩
        : InstanceSnapshot String).metadata.ignore_unknown_instances = false ∧
    (InstanceSnapshot.mk none "root" "Folder" [] [] ⟨true, some ("/foo", "root")⟩
        : InstanceSnapshot String).metadata.ignore_unknown_instances = true ∧
    (InstanceSnapshot.mk none "root" "Folder" [("Value", "Original"), ("Keep", "k")] []
        ⟨true, some ("/foo", "root")⟩
        : InstanceSnapshot String).metadata.ignore_unknown_instances =
      snapFolderEx.metadata.ignore_unknown_instances := by
  have h1 : snapshot_project_node resolveId sfvFolderEx isRelEx joinEx "/foo" "root"
      (.mk (some "Folder") none [] (some false) []) =
      .ok (some (.mk none "root" "Folder" [] [] ⟨false, some ("/foo", "root")⟩)) := by
    have hsc : snapshot_children resolveId sfvFolderEx isRelEx joinEx "/foo"
        ([] : List (String × ProjectNode String)) = .ok [] := by
      rw [snapshot_children]
    rw [snapshot_project_node]
    simp only [pathStep, resolveProps, InstanceMetadata.deflt, hsc]
    rfl
  have h2 : snapshot_project_node resolveId sfvFolderEx isRelEx joinEx "/foo" "root"
      (.mk (some "Folder") none [] none []) =
      .ok (some (.mk none "root" "Folder" [] [] ⟨true, some ("/foo", "root")⟩)) := by
    have hsc : snapshot_children resolveId sfvFolderEx isRelEx joinEx "/foo"
        ([] : List (String × ProjectNode String)) = .ok [] := by
      rw [snapshot_children]
    rw [snapshot_project_node]
    simp only [pathStep, resolveProps, InstanceMetadata.deflt, hsc]
    rfl
  have h3 : snapshot_project_node resolveId sfvFolderEx isRelEx joinEx "/foo" "root"
      (.mk none (some "p") [] none []) =
      .ok (some (.mk none "root" "Folder" [("Value", "Original"), ("Keep", "k")] []
        ⟨true, some ("/foo", "root")⟩)) := by
    have hsc : snapshot_children resolveId sfvFolderEx isRelEx joinEx "/foo"
        ([] : List (String × ProjectNode String)) = .ok [] := by
      rw [snapshot_children]
    rw [snapshot_project_node]
    simp only [pathStep, resolveProps, sfvFolderEx, snapFolderEx, InstanceSnapshot.class_name,
      InstanceSnapshot.properties, InstanceSnapshot.children, InstanceSnapshot.metadata, hsc]
    rfl
  refine ⟨?_, ?_, ?_⟩
  · exact (project_ignore_unknown_rule resolveId sfvFolderEx isRelEx joinEx "/foo" "root"
      (some "Folder") none [] (some false) [] _ h1).1 false rfl
  · exact (project_ignore_unknown_rule resolveId sfvFolderEx isRelEx joinEx "/foo" "root"
      (some "Folder") none [] none [] _ h2).2.1 rfl rfl
  · exact (project_ignore_unknown_rule resolveId sfvFolderEx isRelEx joinEx "/foo" "root"
      none (some "p") [] none [] _ h3).2.2 "p" snapFolderEx rfl rfl rfl

theorem project_properties_overlay_witness :
    lookupAssoc (InstanceSnapshot.mk none "root" "StringValue"
        [("Value", "Changed"), ("Keep", "k")] [] ⟨false, some ("/foo", "root")⟩
        : InstanceSnapshot String).properties "Keep" =
      lookupAssoc snapStringValueEx.properties "Keep" ∧
    ∃ rv, resolveId (InstanceSnapshot.mk none "root" "StringValue"
        [("Value", "Changed"), ("Keep", "k")] [] ⟨false, some ("/foo", "root")⟩
        : InstanceSnapshot String).class_name "Value" "Changed" = some rv ∧
      lookupAssoc (InstanceSnapshot.mk none "root" "StringValue"
        [("Value", "Changed"), ("Keep", "k")] [] ⟨false, some ("/foo", "root")⟩
        : InstanceSnapshot String).properties "Value" = some rv := by
  have h : snapshot_project_node resolveId sfvStringValueEx isRelEx joinEx "/foo" "root"
      (.mk none (some "p") [("Value", "Changed")] none []) =
      .ok (some (.mk none "root" "StringValue" [("Value", "Changed"), ("Keep", "k")] []
        ⟨false, some ("/foo", "root")⟩)) := by
    have hsc : snapshot_children resolveId sfvStringValueEx isRelEx joinEx "/foo"
        ([] : List (String × ProjectNode String)) = .ok [] := by
      rw [snapshot_children]
    rw [snapshot_project_node]
    simp only [pathStep, resolveProps, sfvStringValueEx, snapStringValueEx, resolveId,
      insertAssoc, InstanceSnapshot.class_name, InstanceSnapshot.properties,
      InstanceSnapshot.children, InstanceSnapshot.metadata, hsc]
    rfl
  have hres := project_properties_overlay resolveId sfvStringValueEx isRelEx joinEx "/foo" "root"
    none "p" [("Value", "Changed")] none [] snapStringValueEx _ rfl h (by decide)
  exact ⟨hres.1 "Keep" (by decide), hres.2 "Value" "Changed" (by decide)⟩

/-! ## C3: the effect of a `changed_children` entry under `apply_patch` -/

theorem getInstance_setInstance_ne (t : RbxTree V) (id k : Nat) (inst : RbxInstance V)
    (h : k ≠ id) : getInstance (setInstance t id inst) k = getInstance t k := by
  show lookupAssoc (replaceAssoc t.instances id inst) k = lookupAssoc t.instances k
  rw [lookupAssoc_replaceAssoc]
  rw [if_neg (fun he : id = k => h he.symm)]

theorem setInstance_next_id (t : RbxTree V) (id : Nat) (inst : RbxInstance V) :
    (setInstance t id inst).next_id = t.next_id := rfl

theorem pos_length_of_lookupAssoc_isSome {κ α : Type} [DecidableEq κ] {l : List (κ × α)} {k : κ}
    (h : (lookupAssoc l k).isSome) : 0 < l.length := by
  cases l with
  | nil => simp [lookupAssoc] at h
  | cons hd tl => simp

theorem replaceAssoc_length {κ α : Type} [DecidableEq κ] (l : List (κ × α)) (k0 : κ) (a : α) :
    (replaceAssoc l k0 a).length = l.length := by
  induction l with
  | nil => rfl
  | cons hd tl ih =>
    obtain ⟨k1, v1⟩ := hd
    by_cases h1 : k1 = k0 <;> simp [replaceAssoc, h1, ih]

/-- Removing a childless instance deletes just its record and unlinks it from
its parent. -/
theorem remove_instance_leaf (t : RbxTree V) (c pid : Nat) (ci pinst : RbxInstance V)
    (hc : getInstance t c = some ci) (hch : ci.children = []) (hp : ci.parent = some pid)
    (hpc : pid ≠ c) (hpl : getInstance t pid = some pinst) :
    remove_instance c t =
      eraseId c (setInstance t pid
        { pinst with children := pinst.children.filter (fun x => x ≠ c) }) := by
  have hunlink : unlink c t =
      setInstance t pid { pinst with children := pinst.children.filter (fun x => x ≠ c) } := by
    unfold unlink
    simp only [hc, hp, hpl]
  unfold remove_instance
  rw [hunlink]
  have hc1 : getInstance (setInstance t pid
      { pinst with children := pinst.children.filter (fun x => x ≠ c) }) c = some ci := by
    rw [getInstance_setInstance_ne _ _ _ _ (fun h => hpc h.symm)]
    exact hc
  have hlen : (setInstance t pid
      { pinst with children := pinst.children.filter (fun x => x ≠ c) }).instances.length =
      t.instances.length := replaceAssoc_length _ _ _
  have hpos : 0 < t.instances.length :=
    pos_length_of_lookupAssoc_isSome (l := t.instances) (k := c) (by simp [getInstance] at hc; simp [hc])
  obtain ⟨n, hn⟩ : ∃ n, (setInstance t pid
      { pinst with children := pinst.children.filter (fun x => x ≠ c) }).instances.length =
      n + 1 := ⟨t.instances.length - 1, by omega⟩
  rw [hn]
  unfold removeSubtreeFuel
  simp only [hc1, hch, List.foldl_nil]

/-- A resolver that rejects every value, modelling `try_resolve_value`
failing (e.g. an unknown property), which the source turns into a panic via
`expect` (line 174) — the fatal `UnresolvedValue` of spec section 7. -/
def resolveReject : String → String → String → Option String := fun _ _ _ => none

/-- C6 counterexample: a node with both `$className` and a `$path` whose
snapshot *is* a `Folder` can still fail — here its `$properties` value is
rejected by the resolver — so the claim's unconditional "succeeds with the
`$className` overriding" is false as stated. -/
theorem project_class_mix_unresolved_example :
    snapFolderEx.class_name = "Folder" ∧
    sfvFolderEx (if isRelEx "p" then joinEx "/foo" "p" else "p") = .ok (some snapFolderEx) ∧
    snapshot_project_node resolveReject sfvFolderEx isRelEx joinEx "/foo" "root"
      (.mk (some "Workspace") (some "p") [("Value", "x")] none []) =
      .error .unresolvedValue := by
  refine ⟨rfl, rfl, ?_⟩
  have hsc : snapshot_children resolveReject sfvFolderEx isRelEx joinEx "/foo"
      ([] : List (String × ProjectNode String)) = .ok [] := by
    rw [snapshot_children]
  rw [snapshot_project_node]
  simp only [pathStep, resolveProps, resolveReject, sfvFolderEx, snapFolderEx,
    InstanceSnapshot.class_name, InstanceSnapshot.properties, InstanceSnapshot.children,
    InstanceSnapshot.metadata, hsc]
  rfl
